import Mathlib

/-!
Verification development for the qiskit-terra snapshot under study.

The repository holds two source files:
  * `src/qiskit/extensions/standard/s.py` — the S gate, S-inverse gate and
    the deprecated Sdg alias (embedded in the `StdGate` section below).
  * `src/test/python/test_localjob.py` — unit tests of the LocalJob
    asynchronous job core.  The LocalJob implementation itself is not part
    of the snapshot, so the job state machine is modelled from the
    specification (definitions whose doc comment starts with
    `Modelled from the spec:`).
-/

/- ## Job core: data model (modelled from the spec) -/

/-- Modelled from the spec: the Job status values of §4.2.  The spec name
INITIALIZING is written `initial` here. -/
inductive JobStatus where
  | initial
  | queued
  | running
  | cancelled
  | done
  | errored
deriving DecidableEq, Repr

/-- Modelled from the spec: the opaque success payload surfaced on DONE. -/
abbrev JobResult := String

/-- Modelled from the spec: the captured error cause surfaced on ERROR. -/
abbrev ErrorInfo := String

/-- Modelled from the spec §3: the Job record.  `resultOrError` is `Sum.inl`
a result on DONE and `Sum.inr` an error cause on ERROR. -/
structure JobState where
  backendName : String
  status : JobStatus
  resultOrError : Option (JobResult ⊕ ErrorInfo)
  cancelRequested : Bool
deriving DecidableEq, Repr

/-- Modelled from the spec: a freshly constructed Job, before submission. -/
def initJob (backend : String) : JobState :=
  { backendName := backend
  , status := .initial
  , resultOrError := none
  , cancelRequested := false }

/-- Modelled from the spec: the events that can act on one Job.  `submit`,
`start`, `finishOk` and `finishErr` are the pool- and worker-driven
transitions of §4.2; `cancel` is the caller-driven request; `poll` is a
non-blocking status read. -/
inductive JobEvent where
  | submit
  | start
  | cancel
  | finishOk (r : JobResult)
  | finishErr (e : ErrorInfo)
  | poll
deriving DecidableEq, Repr

/-- Modelled from the spec §4.2: the transition function of one Job.  An
event whose guard does not hold leaves the Job unchanged (the pool never
fires `start` except from QUEUED, a cancel not in QUEUED is rejected,
a finish not in RUNNING cannot occur; modelling them as no-ops lets the
theorems quantify over arbitrary event sequences). -/
def step (s : JobState) : JobEvent → JobState
  | .submit =>
      if s.status = .initial then { s with status := .queued } else s
  | .start =>
      if s.status = .queued then { s with status := .running } else s
  | .cancel =>
      if s.status = .queued then
        { s with status := .cancelled, cancelRequested := true }
      else
        { s with cancelRequested := true }
  | .finishOk r =>
      if s.status = .running then
        { s with status := .done, resultOrError := some (.inl r) }
      else s
  | .finishErr e =>
      if s.status = .running then
        { s with status := .errored, resultOrError := some (.inr e) }
      else s
  | .poll => s

/-- Modelled from the spec §4.2: what `cancel()` returns when called in
state `s` — true only if the transition QUEUED → CANCELLED occurs. -/
def cancelResult (s : JobState) : Bool :=
  s.status = .queued

/-- Modelled from the spec: run a sequence of events against a Job. -/
def runTrace (s : JobState) (es : List JobEvent) : JobState :=
  es.foldl step s

/-- Modelled from the spec §4.2: the edges of the status transition graph. -/
def allowedEdge : JobStatus → JobStatus → Bool
  | .initial, .queued => true
  | .queued, .running => true
  | .queued, .cancelled => true
  | .running, .done => true
  | .running, .errored => true
  | _, _ => false

/-- Modelled from the spec §4.2: a rank strictly increasing along every
edge of the graph, so no sequence of transitions revisits an earlier
state. -/
def statusRank : JobStatus → Nat
  | .initial => 0
  | .queued => 1
  | .running => 2
  | .cancelled => 3
  | .done => 3
  | .errored => 3

/-- Modelled from the spec §4.2: the terminal statuses. -/
def isTerminal : JobStatus → Bool
  | .cancelled => true
  | .done => true
  | .errored => true
  | _ => false

/-- Modelled from the spec §4.2 and §7: what `result()` surfaces once the
Job is in a terminal state, and `none` while it is not yet terminal. -/
inductive ResultOutcome where
  | ok (r : JobResult)
  | executionFailure (e : ErrorInfo)
  | cancelledFailure
  | timeoutFailure
deriving DecidableEq, Repr

/-- Modelled from the spec §4.2: the non-blocking read underlying
`result()`: the captured outcome in a terminal state, `none` otherwise. -/
def resultRead (s : JobState) : Option ResultOutcome :=
  match s.status, s.resultOrError with
  | .done, some (.inl r) => some (.ok r)
  | .errored, some (.inr e) => some (.executionFailure e)
  | .cancelled, _ => some .cancelledFailure
  | _, _ => none

/-- Modelled from the spec §4.2 and §7: `result(timeout)` observed at the
moment the deadline elapses.  If the Job has reached a terminal state the
captured outcome is returned; otherwise the call fails with the timeout
failure.  Either way the Job state is returned unaltered: the timeout only
stops waiting. -/
def resultWithTimeout (s : JobState) : ResultOutcome × JobState :=
  match resultRead s with
  | some o => (o, s)
  | none => (.timeoutFailure, s)

/- ## Backend dispatcher (modelled from the spec §4.3) -/

/-- Modelled from the spec §4.3: the pool configuration a backend name
resolves to — worker count and thread-vs-process mode. -/
structure BackendConfig where
  capacity : Nat
  processMode : Bool
deriving DecidableEq, Repr

/-- Modelled from the spec §4.3: the registry of known backends. -/
abbrev Registry := List (String × BackendConfig)

/-- Modelled from the spec §7: the error surfaced synchronously at
dispatch time for an unregistered backend identifier. -/
inductive DispatchFailure where
  | unknownBackend (name : String)
deriving DecidableEq, Repr

/-- Modelled from the spec §6 and §4.3: `getBackend(name)` — pure lookup,
failing with the unknown-backend failure when the name is unregistered. -/
def getBackend (reg : Registry) (name : String) :
    Except DispatchFailure BackendConfig :=
  match reg.find? (fun p => p.1 = name) with
  | some p => .ok p.2
  | none => .error (.unknownBackend name)

/-- Modelled from the spec §6: `BackendHandle.run(unit)` — dispatch an
execution unit under a backend name.  The Job is constructed only after
the lookup succeeds, so an unregistered name fails before any Job
exists. -/
def dispatchRun (reg : Registry) (name : String) :
    Except DispatchFailure JobState :=
  match getBackend reg name with
  | .ok _ => .ok (step (initJob name) .submit)
  | .error e => .error e

/- ## Worker pool (modelled from the spec §3 and §4.1) -/

/-- Modelled from the spec §3: the WorkerPool — a capacity bound, a FIFO
queue of pending task identifiers, and the identifiers currently
running. -/
structure PoolState where
  capacity : Nat
  queue : List Nat
  runningTasks : List Nat
deriving DecidableEq, Repr

/-- Modelled from the spec §4.1 and §5: the pool dequeues pending tasks in
FIFO order whenever workers are free, up to `capacity` simultaneously
running tasks.  `fillPool` is the scheduler action that starts as many
queued tasks as spare capacity allows. -/
def fillPool (p : PoolState) : PoolState :=
  let k := p.capacity - p.runningTasks.length
  { p with
    runningTasks := p.runningTasks ++ p.queue.take k
  , queue := p.queue.drop k }

/- ## The S gate family, embedded from src/qiskit/extensions/standard/s.py -/

/-- A Gaussian integer `re + im·i`.  The `to_matrix` entries of the S
family (1, i, -i) are exactly representable, so the numpy complex entries
are embedded without approximation. -/
structure GInt where
  re : Int
  im : Int
deriving DecidableEq, Repr

/-- Complex multiplication restricted to Gaussian integers. -/
def GInt.mul (x y : GInt) : GInt :=
  ⟨x.re * y.re - x.im * y.im, x.re * y.im + x.im * y.re⟩

/-- Complex addition restricted to Gaussian integers. -/
def GInt.add (x y : GInt) : GInt :=
  ⟨x.re + y.re, x.im + y.im⟩

/-- A 2×2 matrix of Gaussian integers, row major. -/
structure Mat2 where
  a : GInt
  b : GInt
  c : GInt
  d : GInt
deriving DecidableEq, Repr

/-- 2×2 matrix product. -/
def Mat2.mul (m n : Mat2) : Mat2 :=
  ⟨ (m.a.mul n.a).add (m.b.mul n.c)
  , (m.a.mul n.b).add (m.b.mul n.d)
  , (m.c.mul n.a).add (m.d.mul n.c)
  , (m.c.mul n.b).add (m.d.mul n.d) ⟩

/-- The 2×2 identity matrix. -/
def Mat2.identity : Mat2 :=
  ⟨⟨1, 0⟩, ⟨0, 0⟩, ⟨0, 0⟩, ⟨1, 0⟩⟩

/-- The three gate classes of s.py: `SGate`, `SInvGate`, and the
deprecated `SdgGate` (a subclass of `SInvGate`). -/
inductive StdGate where
  | sGate
  | sInvGate
  | sdgGate
deriving DecidableEq, Repr

/-- The `name` each constructor passes to `Gate.__init__`.  `SdgGate`
calls `super().__init__()`, i.e. `SInvGate.__init__`, so it also gets
the name `sinv`. -/
def gateName : StdGate → String
  | .sGate => "s"
  | .sInvGate => "sinv"
  | .sdgGate => "sinv"

/-- The qubit count each constructor passes to `Gate.__init__`. -/
def gateNumQubits : StdGate → Nat
  | _ => 1

/-- The parameter list each constructor passes to `Gate.__init__`
(always empty for the S family; angles are recorded as integer multiples
of π/2). -/
def gateParams : StdGate → List Int
  | _ => []

/-- The `_define` body: a single `u1(c·π/2)` on qubit 0, recorded as the
integer coefficient `c` of π/2 together with the qubit index.  `SGate`
uses `u1(pi/2)`, `SInvGate` uses `u1(-pi/2)`, and `SdgGate` inherits
`SInvGate._define`. -/
def gateDefinition : StdGate → List (Int × Nat)
  | .sGate => [(1, 0)]
  | .sInvGate => [(-1, 0)]
  | .sdgGate => [(-1, 0)]

/-- The `inverse` method: `SGate.inverse` returns `SInvGate()`,
`SInvGate.inverse` returns `SGate()`, and `SdgGate` inherits
`SInvGate.inverse`. -/
def gateInverse : StdGate → StdGate
  | .sGate => .sInvGate
  | .sInvGate => .sGate
  | .sdgGate => .sGate

/-- The `to_matrix` method: `diag(1, i)` for `SGate`, `diag(1, -i)` for
`SInvGate`, and `SdgGate` inherits `SInvGate.to_matrix`. -/
def gateMatrix : StdGate → Mat2
  | .sGate => ⟨⟨1, 0⟩, ⟨0, 0⟩, ⟨0, 0⟩, ⟨0, 1⟩⟩
  | .sInvGate => ⟨⟨1, 0⟩, ⟨0, 0⟩, ⟨0, 0⟩, ⟨0, -1⟩⟩
  | .sdgGate => ⟨⟨1, 0⟩, ⟨0, 0⟩, ⟨0, 0⟩, ⟨0, -1⟩⟩

/-- Whether the constructor emits a `DeprecationWarning`: only
`SdgGate.__init__` warns before delegating to `SInvGate.__init__`. -/
def constructorWarns : StdGate → Bool
  | .sdgGate => true
  | _ => false

/-- The two classes whose metaclass is `SinvMeta`, as targets of an
`isinstance` check. -/
inductive SinvClassRef where
  | sInvClassRef
  | sdgClassRef
deriving DecidableEq, Repr

/-- `SinvMeta.__instancecheck__`: returns `type(inst) in {SInvGate,
SdgGate}`.  Because the method is a classmethod of the metaclass, the
class the check is made against is discarded, so the answer depends only
on the instance. -/
def isinstanceSinv (_cls : SinvClassRef) (inst : StdGate) : Bool :=
  inst = .sInvGate || inst = .sdgGate

/-- A circuit as the list of appended (gate, qubit) pairs: the model of
`QuantumCircuit.append` needed for the `s`/`sinv`/`sdg` helpers. -/
abbrev Circuit := List (StdGate × Nat)

/-- The `sdg(self, q)` helper: emits a `DeprecationWarning` (the returned
flag) and appends an `SdgGate` to the circuit. -/
def sdgHelper (qc : Circuit) (q : Nat) : Bool × Circuit :=
  (true, qc ++ [(.sdgGate, q)])

/-- The `sinv(self, q)` helper: appends an `SInvGate`, no warning. -/
def sinvHelper (qc : Circuit) (q : Nat) : Bool × Circuit :=
  (false, qc ++ [(.sInvGate, q)])

/- ## Shared helper lemmas -/

/-- A single step never moves the status out of {RUNNING, DONE, ERROR}. -/
theorem step_keeps_past_queue (s : JobState)
    (h : s.status = .running ∨ s.status = .done ∨ s.status = .errored)
    (e : JobEvent) :
    (step s e).status = .running ∨ (step s e).status = .done ∨
      (step s e).status = .errored := by
  cases e <;> rcases h with h | h | h <;> simp [step, h]

/-- A whole trace never moves the status out of {RUNNING, DONE, ERROR}. -/
theorem runTrace_keeps_past_queue (es : List JobEvent) (s : JobState)
    (h : s.status = .running ∨ s.status = .done ∨ s.status = .errored) :
    (runTrace s es).status = .running ∨ (runTrace s es).status = .done ∨
      (runTrace s es).status = .errored := by
  induction es generalizing s with
  | nil => exact h
  | cons e es ih => exact ih (step s e) (step_keeps_past_queue s h e)

/-- One step preserves the capture invariant: `resultOrError` is populated
exactly in DONE and ERROR. -/
theorem step_keeps_capture_inv (s : JobState)
    (h : s.resultOrError.isSome = true ↔
      (s.status = .done ∨ s.status = .errored))
    (e : JobEvent) :
    (step s e).resultOrError.isSome = true ↔
      ((step s e).status = .done ∨ (step s e).status = .errored) := by
  cases e <;> cases hs : s.status <;> simp_all [step]

/-- A step never changes `backendName`. -/
theorem step_backendName (s : JobState) (e : JobEvent) :
    (step s e).backendName = s.backendName := by
  cases e <;> simp [step] <;> split <;> simp

/-- A trace never changes `backendName`. -/
theorem runTrace_backendName (es : List JobEvent) (s : JobState) :
    (runTrace s es).backendName = s.backendName := by
  induction es generalizing s with
  | nil => rfl
  | cons e es ih => rw [runTrace, List.foldl_cons, ← runTrace, ih,
      step_backendName]

/- ## Claims about the S gate family (from the source) -/

/-- Claim C9: S and its inverse form an exact round trip:
`SGate().inverse()` is an `SInvGate` and `SInvGate().inverse()` is an
`SGate`, so taking the inverse twice returns a gate equal to the
original; and the matrix product of the two `to_matrix` values is exactly
the 2×2 identity, with exact Gaussian-integer entries. -/
theorem c9_s_inverse_round_trip :
    gateInverse .sGate = .sInvGate ∧
    gateInverse .sInvGate = .sGate ∧
    gateInverse (gateInverse .sGate) = .sGate ∧
    gateInverse (gateInverse .sInvGate) = .sInvGate ∧
    Mat2.mul (gateMatrix .sGate) (gateMatrix .sInvGate) = Mat2.identity := by
  decide

/-- Claim C10: the deprecated `SdgGate` is behaviorally equivalent to
`SInvGate`: same name `sinv`, same qubit count and parameters, same
`u1(-π/2)` definition, same matrix `diag(1, -i)` and same inverse,
differing only in emitting a `DeprecationWarning` at construction; and
through `SinvMeta`, an `isinstance` check against either class accepts
instances of both. -/
theorem c10_sdg_equivalent_to_sinv :
    gateName .sdgGate = gateName .sInvGate ∧
    gateName .sdgGate = "sinv" ∧
    gateNumQubits .sdgGate = gateNumQubits .sInvGate ∧
    gateParams .sdgGate = gateParams .sInvGate ∧
    gateDefinition .sdgGate = gateDefinition .sInvGate ∧
    gateMatrix .sdgGate = gateMatrix .sInvGate ∧
    gateMatrix .sdgGate = ⟨⟨1, 0⟩, ⟨0, 0⟩, ⟨0, 0⟩, ⟨0, -1⟩⟩ ∧
    gateInverse .sdgGate = gateInverse .sInvGate ∧
    constructorWarns .sdgGate = true ∧
    constructorWarns .sInvGate = false ∧
    isinstanceSinv .sInvClassRef .sdgGate = true ∧
    isinstanceSinv .sInvClassRef .sInvGate = true ∧
    isinstanceSinv .sdgClassRef .sdgGate = true ∧
    isinstanceSinv .sdgClassRef .sInvGate = true := by
  decide

/- ## Claims about the job core (modelled from the spec) -/

/-- Claim C1: a Job's status only ever changes along the path
INITIALIZING → QUEUED → {RUNNING → {DONE, ERROR}} | CANCELLED — every
step either leaves the status unchanged or follows an edge of the graph,
and every actual transition strictly increases the status rank, so no
sequence of cancel and poll operations ever revisits an earlier state. -/
theorem c1_status_transitions_follow_graph (s : JobState) (e : JobEvent) :
    (step s e).status = s.status ∨
      (allowedEdge s.status (step s e).status = true ∧
        statusRank s.status < statusRank (step s e).status) := by
  cases e <;> cases h : s.status <;>
    simp [step, allowedEdge, statusRank, h]

/-- Claim C2: once a Job's task has been dequeued for execution (status
RUNNING or later), `cancel()` returns false, the cancel call leaves the
status and captured outcome untouched, and no continuation of the run
ever reaches CANCELLED. -/
theorem c2_cancel_after_start_fails (s : JobState) (es : List JobEvent)
    (h : s.status = .running ∨ s.status = .done ∨ s.status = .errored) :
    cancelResult s = false ∧
    (step s .cancel).status = s.status ∧
    (step s .cancel).resultOrError = s.resultOrError ∧
    (runTrace s es).status ≠ .cancelled := by
  refine ⟨?_, ?_, ?_, ?_⟩
  · rcases h with h | h | h <;> simp [cancelResult, h]
  · rcases h with h | h | h <;> simp [step, h]
  · rcases h with h | h | h <;> simp [step, h]
  · rcases runTrace_keeps_past_queue es s h with h2 | h2 | h2 <;>
      simp [h2]

/-- Witness for C2 at a concrete running Job and a concrete trace. -/
theorem c2_cancel_after_start_fails_witness :
    ((⟨"local_qasm_simulator_py", .running, none, false⟩ : JobState).status
        = .running ∨
      (⟨"local_qasm_simulator_py", .running, none, false⟩ : JobState).status
        = .done ∨
      (⟨"local_qasm_simulator_py", .running, none, false⟩ : JobState).status
        = .errored) ∧
    (cancelResult ⟨"local_qasm_simulator_py", .running, none, false⟩ = false ∧
      (step ⟨"local_qasm_simulator_py", .running, none, false⟩ .cancel).status
        = (⟨"local_qasm_simulator_py", .running, none, false⟩ : JobState).status ∧
      (step ⟨"local_qasm_simulator_py", .running, none, false⟩
          .cancel).resultOrError
        = (⟨"local_qasm_simulator_py", .running, none, false⟩ :
            JobState).resultOrError ∧
      (runTrace ⟨"local_qasm_simulator_py", .running, none, false⟩
          [.cancel, .finishOk "counts"]).status ≠ .cancelled) :=
  ⟨Or.inl rfl,
    c2_cancel_after_start_fails
      ⟨"local_qasm_simulator_py", .running, none, false⟩
      [.cancel, .finishOk "counts"] (Or.inl rfl)⟩

/-- Claim C3: at every reachable point of a Job's lifetime,
`resultOrError` is populated exactly when the status is DONE or ERROR;
in INITIALIZING, QUEUED, RUNNING and CANCELLED it is absent. -/
theorem c3_result_present_iff_terminal_capture (b : String)
    (es : List JobEvent) :
    (runTrace (initJob b) es).resultOrError.isSome = true ↔
      ((runTrace (initJob b) es).status = .done ∨
        (runTrace (initJob b) es).status = .errored) := by
  have main : ∀ (es : List JobEvent) (s : JobState),
      (s.resultOrError.isSome = true ↔
        (s.status = .done ∨ s.status = .errored)) →
      ((runTrace s es).resultOrError.isSome = true ↔
        ((runTrace s es).status = .done ∨
          (runTrace s es).status = .errored)) := by
    intro es
    induction es with
    | nil => intro s h; exact h
    | cons e es ih =>
        intro s h
        exact ih (step s e) (step_keeps_capture_inv s h e)
  exact main es (initJob b) (by simp [initJob])

/-- Claim C4: a `result(timeout)` call whose deadline elapses while the
Job is still executing fails with the timeout failure, leaves the Job
state unchanged and non-terminal, and a later unrestricted `result()`
on the finished Job still succeeds with the captured outcome. -/
theorem c4_timeout_leaves_job_intact (s : JobState) (r : JobResult)
    (h : s.status = .running) :
    resultWithTimeout s = (.timeoutFailure, s) ∧
    isTerminal (resultWithTimeout s).2.status = false ∧
    resultRead (step s (.finishOk r)) = some (.ok r) := by
  rcases s with ⟨bn, st, roe, cr⟩
  simp only at h
  subst h
  refine ⟨?_, ?_, ?_⟩
  · rcases roe with _ | (_ | _) <;> rfl
  · rcases roe with _ | (_ | _) <;> rfl
  · rfl

/-- Witness for C4 at a concrete running Job. -/
theorem c4_timeout_leaves_job_intact_witness :
    (⟨"local_qasm_simulator_py", .running, none, false⟩ : JobState).status
      = .running ∧
    (resultWithTimeout ⟨"local_qasm_simulator_py", .running, none, false⟩
        = (.timeoutFailure,
            ⟨"local_qasm_simulator_py", .running, none, false⟩) ∧
      isTerminal (resultWithTimeout
        ⟨"local_qasm_simulator_py", .running, none, false⟩).2.status
        = false ∧
      resultRead (step ⟨"local_qasm_simulator_py", .running, none, false⟩
        (.finishOk "counts")) = some (.ok "counts")) :=
  ⟨rfl,
    c4_timeout_leaves_job_intact
      ⟨"local_qasm_simulator_py", .running, none, false⟩ "counts" rfl⟩

/-- Claim C5: dispatching under an unregistered backend name fails with
the unknown-backend failure before any Job is created: both the backend
lookup and the full dispatch return the synchronous failure, and no
`JobState` value is produced. -/
theorem c5_unknown_backend_fails_before_job (reg : Registry)
    (name : String) (h : ∀ p ∈ reg, p.1 ≠ name) :
    getBackend reg name = .error (.unknownBackend name) ∧
    dispatchRun reg name = .error (.unknownBackend name) := by
  have hfind : reg.find? (fun p => p.1 = name) = none := by
    rw [List.find?_eq_none]
    intro p hp
    simpa using h p hp
  constructor
  · simp [getBackend, hfind]
  · simp [dispatchRun, getBackend, hfind]

/-- Witness for C5: a registry holding only the local simulators rejects
a bogus name. -/
theorem c5_unknown_backend_fails_before_job_witness :
    (∀ p ∈ ([("local_qasm_simulator_py", ⟨1, false⟩),
        ("local_qasm_simulator_cpp", ⟨2, true⟩)] : Registry),
      p.1 ≠ "ibmq_does_not_exist") ∧
    (getBackend [("local_qasm_simulator_py", ⟨1, false⟩),
        ("local_qasm_simulator_cpp", ⟨2, true⟩)] "ibmq_does_not_exist"
      = .error (.unknownBackend "ibmq_does_not_exist") ∧
    dispatchRun [("local_qasm_simulator_py", ⟨1, false⟩),
        ("local_qasm_simulator_cpp", ⟨2, true⟩)] "ibmq_does_not_exist"
      = .error (.unknownBackend "ibmq_does_not_exist")) :=
  ⟨by decide,
    c5_unknown_backend_fails_before_job
      [("local_qasm_simulator_py", ⟨1, false⟩),
       ("local_qasm_simulator_cpp", ⟨2, true⟩)]
      "ibmq_does_not_exist" (by decide)⟩

/-- Claim C6: a pool with capacity at least 2 holding at least two
long-running pending jobs starts at least two of them simultaneously:
after the scheduler fills the free workers, at least two tasks are
running at the same time (and never more than `capacity`). -/
theorem c6_two_jobs_running_simultaneously (p : PoolState)
    (hcap : 2 ≤ p.capacity) (hq : 2 ≤ p.queue.length)
    (hrun : p.runningTasks = []) :
    2 ≤ (fillPool p).runningTasks.length ∧
    (fillPool p).runningTasks.length ≤ p.capacity := by
  rcases p with ⟨cap, q, run⟩
  simp only at hcap hq hrun
  subst hrun
  simp only [fillPool, List.nil_append, List.length_take, List.length_nil]
  omega

/-- Witness for C6: a capacity-2 pool with two pending tasks. -/
theorem c6_two_jobs_running_simultaneously_witness :
    (2 ≤ (⟨2, [0, 1], []⟩ : PoolState).capacity ∧
      2 ≤ (⟨2, [0, 1], []⟩ : PoolState).queue.length ∧
      (⟨2, [0, 1], []⟩ : PoolState).runningTasks = []) ∧
    (2 ≤ (fillPool ⟨2, [0, 1], []⟩).runningTasks.length ∧
      (fillPool ⟨2, [0, 1], []⟩).runningTasks.length
        ≤ (⟨2, [0, 1], []⟩ : PoolState).capacity) :=
  ⟨⟨by decide, by decide, rfl⟩,
    c6_two_jobs_running_simultaneously ⟨2, [0, 1], []⟩
      (by decide) (by decide) rfl⟩

/-- Claim C7: `cancel()` on a Job that reached DONE returns false and
leaves the status DONE; and cancellation is idempotent: after a
successful QUEUED → CANCELLED cancellation, a second `cancel()` returns
false and changes nothing. -/
theorem c7_cancel_done_noop_and_idempotent (s t : JobState)
    (hs : s.status = .done) (ht : t.status = .queued) :
    cancelResult s = false ∧
    (step s .cancel).status = .done ∧
    cancelResult t = true ∧
    (step t .cancel).status = .cancelled ∧
    cancelResult (step t .cancel) = false ∧
    step (step t .cancel) .cancel = step t .cancel := by
  refine ⟨?_, ?_, ?_, ?_, ?_, ?_⟩ <;>
    simp [cancelResult, step, hs, ht]

/-- Witness for C7 at a concrete finished Job and a concrete queued Job. -/
theorem c7_cancel_done_noop_and_idempotent_witness :
    ((⟨"b", .done, some (.inl "counts"), false⟩ : JobState).status = .done ∧
      (⟨"b", .queued, none, false⟩ : JobState).status = .queued) ∧
    (cancelResult ⟨"b", .done, some (.inl "counts"), false⟩ = false ∧
      (step ⟨"b", .done, some (.inl "counts"), false⟩ .cancel).status
        = .done ∧
      cancelResult ⟨"b", .queued, none, false⟩ = true ∧
      (step ⟨"b", .queued, none, false⟩ .cancel).status = .cancelled ∧
      cancelResult (step ⟨"b", .queued, none, false⟩ .cancel) = false ∧
      step (step ⟨"b", .queued, none, false⟩ .cancel) .cancel
        = step ⟨"b", .queued, none, false⟩ .cancel) :=
  ⟨⟨rfl, rfl⟩,
    c7_cancel_done_noop_and_idempotent
      ⟨"b", .done, some (.inl "counts"), false⟩
      ⟨"b", .queued, none, false⟩ rfl rfl⟩

/-- Claim C8: a Job dispatched under backend name `n` has
`backendName = n`, and no sequence of events ever changes it. -/
theorem c8_backend_name_fixed (reg : Registry) (n : String) (j : JobState)
    (h : dispatchRun reg n = .ok j) (es : List JobEvent) :
    j.backendName = n ∧ (runTrace j es).backendName = n := by
  have hj : j.backendName = n := by
    cases hg : getBackend reg n with
    | ok c =>
        simp only [dispatchRun, hg, Except.ok.injEq] at h
        subst h
        rw [step_backendName]
        rfl
    | error e =>
        simp [dispatchRun, hg] at h
  exact ⟨hj, by rw [runTrace_backendName, hj]⟩

/-- Witness for C8: a registered simulator name, a concrete Job, a
concrete trace. -/
theorem c8_backend_name_fixed_witness :
    dispatchRun [("local_qasm_simulator_py", ⟨1, false⟩)]
        "local_qasm_simulator_py"
      = .ok ⟨"local_qasm_simulator_py", .queued, none, false⟩ ∧
    ((⟨"local_qasm_simulator_py", .queued, none, false⟩ :
        JobState).backendName = "local_qasm_simulator_py" ∧
      (runTrace ⟨"local_qasm_simulator_py", .queued, none, false⟩
        [.start, .finishOk "counts"]).backendName
        = "local_qasm_simulator_py") :=
  ⟨rfl,
    c8_backend_name_fixed [("local_qasm_simulator_py", ⟨1, false⟩)]
      "local_qasm_simulator_py"
      ⟨"local_qasm_simulator_py", .queued, none, false⟩ rfl
      [.start, .finishOk "counts"]⟩
